import Mathlib

/-!
Verification of the statistical distribution core of the
investment-good-sleep-line repository.

The definitions below are a shallow embedding, over the real numbers, of
the TypeScript source:
  - src/utils/normalDistribution.ts  (lognormal / continuous-compounding
    variant of the module: erf, normalCDF, normalPDF, general-form
    evaluators, normalInverseCDF, calculateInvestmentDistribution,
    lognormalPDF, lognormalCDF, generateLognormalDistributionData,
    generateNormalDistributionData)
  - src/unnamed/part_002             (the earlier normal-approximation
    variant of the same module: its calculateInvestmentDistribution)
  - src/unnamed/part_001             (the two DistributionPage versions:
    the percentile worst-case derivations; the SettingsPage handleSubmit
    validation)
  - src/unnamed/part_000             (the SettingsProvider URL-parameter
    range checks)

A JavaScript number is modelled as a real number; a function that throws
is modelled as an Option-valued function returning none on the error path.
-/

noncomputable section

/-- Embedding of erf from src/utils/normalDistribution.ts lines 7-23
(Abramowitz and Stegun approximation; sign extraction then evaluation at
the absolute value). -/
def erf (x : ℝ) : ℝ :=
  let sign : ℝ := if 0 ≤ x then 1 else -1
  let ax := |x|
  let a1 : ℝ := 0.254829592
  let a2 : ℝ := -0.284496736
  let a3 : ℝ := 1.421413741
  let a4 : ℝ := -1.453152027
  let a5 : ℝ := 1.061405429
  let p : ℝ := 0.3275911
  let t := 1.0 / (1.0 + p * ax)
  let y := 1.0 - (((((a5 * t + a4) * t) + a3) * t + a2) * t + a1) * t * Real.exp (-ax * ax)
  sign * y

/-- Embedding of normalCDF from src/utils/normalDistribution.ts lines 30-32. -/
def normalCDF (x : ℝ) : ℝ :=
  0.5 * (1 + erf (x / Real.sqrt 2))

/-- Embedding of normalPDF from src/utils/normalDistribution.ts lines 39-41. -/
def normalPDF (x : ℝ) : ℝ :=
  Real.exp (-0.5 * x * x) / Real.sqrt (2 * Real.pi)

/-- Embedding of normalPDFGeneral from src/utils/normalDistribution.ts
lines 50-53. -/
def normalPDFGeneral (x mean stdDev : ℝ) : ℝ :=
  let z := (x - mean) / stdDev
  normalPDF z / stdDev

/-- Embedding of normalCDFGeneral from src/utils/normalDistribution.ts
lines 62-65. -/
def normalCDFGeneral (x mean stdDev : ℝ) : ℝ :=
  let z := (x - mean) / stdDev
  normalCDF z

/-- The value computed by normalInverseCDF once past its input check
(src/utils/normalDistribution.ts lines 78-117, Beasley-Springer-Moro
approximation: central rational branch, log-log tail branch). -/
def normalInverseCDFBody (p : ℝ) : ℝ :=
  let a0 : ℝ := 2.50662823884
  let a1 : ℝ := -18.61500062529
  let a2 : ℝ := 41.39119773534
  let a3 : ℝ := -25.44106049637
  let b0 : ℝ := -8.47351093090
  let b1 : ℝ := 23.08336743743
  let b2 : ℝ := -21.06224101826
  let b3 : ℝ := 3.13082909833
  let c0 : ℝ := 0.3374754822726147
  let c1 : ℝ := 0.9761690190917186
  let c2 : ℝ := 0.1607979714918209
  let c3 : ℝ := 0.0276438810333863
  let c4 : ℝ := 0.0038405729373609
  let c5 : ℝ := 0.0003951896511919
  let c6 : ℝ := 0.0000321767881768
  let c7 : ℝ := 0.0000002888167364
  let c8 : ℝ := 0.0000003960315187
  let y := p - 0.5
  if |y| < 0.42 then
    let r := y * y
    y * (((a3 * r + a2) * r + a1) * r + a0) /
      ((((b3 * r + b2) * r + b1) * r + b0) * r + 1)
  else
    let r0 := if y > 0 then 1 - p else p
    let r := Real.log (-Real.log r0)
    let x := c0 + r * (c1 + r * (c2 + r * (c3 + r * (c4 + r * (c5 + r * (c6 + r * (c7 + r * c8)))))))
    if y < 0 then -x else x

/-- Embedding of normalInverseCDF from src/utils/normalDistribution.ts
lines 73-118: the thrown invalid-probability error is modelled as none. -/
def normalInverseCDF (p : ℝ) : Option ℝ :=
  if p ≤ 0 ∨ 1 ≤ p then none
  else some (normalInverseCDFBody p)

/-- Embedding of InvestmentDistributionParams from
src/utils/normalDistribution.ts lines 123-128. -/
structure InvestmentDistributionParams where
  initialAssets : ℝ
  expectedReturn : ℝ
  risk : ℝ
  years : ℝ

/-- The four-field result of the lognormal-variant
calculateInvestmentDistribution. -/
structure DistributionStatistics where
  mean : ℝ
  stdDev : ℝ
  logMean : ℝ
  logStdDev : ℝ

/-- Embedding of calculateInvestmentDistribution from
src/utils/normalDistribution.ts lines 135-156 (lognormal,
continuous-compounding variant). -/
def calculateInvestmentDistribution (params : InvestmentDistributionParams) :
    DistributionStatistics :=
  let muRate := params.expectedReturn / 100
  let sigmaRate := params.risk / 100
  let logMean := Real.log params.initialAssets + (muRate - sigmaRate * sigmaRate / 2) * params.years
  let logStdDev := sigmaRate * Real.sqrt params.years
  let mean := params.initialAssets * Real.exp (muRate * params.years)
  let stdDev := mean * Real.sqrt (Real.exp (sigmaRate * sigmaRate * params.years) - 1)
  ⟨mean, stdDev, logMean, logStdDev⟩

/-- Embedding of lognormalPDF from src/utils/normalDistribution.ts
lines 165-169. -/
def lognormalPDF (x logMean logStdDev : ℝ) : ℝ :=
  if x ≤ 0 then 0
  else
    let z := (Real.log x - logMean) / logStdDev
    Real.exp (-0.5 * z * z) / (x * logStdDev * Real.sqrt (2 * Real.pi))

/-- Embedding of lognormalCDF from src/utils/normalDistribution.ts
lines 178-182. -/
def lognormalCDF (x logMean logStdDev : ℝ) : ℝ :=
  if x ≤ 0 then 0
  else
    let z := (Real.log x - logMean) / logStdDev
    normalCDF z

/-- Embedding of generateLognormalDistributionData from
src/utils/normalDistribution.ts lines 192-216.  The loop index is a
natural number; the pushed samples are (x, y) pairs in loop order. -/
def generateLognormalDistributionData (logMean logStdDev : ℝ) (numPoints : ℕ)
    (numStdDev : ℝ) : List (ℝ × ℝ) :=
  let logXMin := max 0 (logMean - numStdDev * logStdDev)
  let logXMax := logMean + numStdDev * logStdDev
  let xMin := Real.exp logXMin
  let xMax := Real.exp logXMax
  let step := (xMax - xMin) / ((numPoints : ℝ) - 1)
  (List.range numPoints).map fun (i : ℕ) =>
    (xMin + (i : ℝ) * step, lognormalPDF (xMin + (i : ℝ) * step) logMean logStdDev)

/-- Embedding of generateNormalDistributionData from
src/utils/normalDistribution.ts lines 226-246 (identical to the copy in
src/unnamed/part_002 lines 160-180). -/
def generateNormalDistributionData (mean stdDev : ℝ) (numPoints : ℕ)
    (numStdDev : ℝ) : List (ℝ × ℝ) :=
  let xMin := max 0 (mean - numStdDev * stdDev)
  let xMax := mean + numStdDev * stdDev
  let step := (xMax - xMin) / ((numPoints : ℝ) - 1)
  (List.range numPoints).map fun (i : ℕ) =>
    (xMin + (i : ℝ) * step, normalPDFGeneral (xMin + (i : ℝ) * step) mean stdDev)

/-- The two-field result of the normal-approximation variant. -/
structure NormalApproxStatistics where
  mean : ℝ
  stdDev : ℝ

/-- Embedding of calculateInvestmentDistribution from
src/unnamed/part_002 lines 135-150 (normal-approximation variant;
Math.pow is real exponentiation). -/
def calculateInvestmentDistributionNormal (params : InvestmentDistributionParams) :
    NormalApproxStatistics :=
  let muRate := params.expectedReturn / 100
  let sigmaRate := params.risk / 100
  let mean := params.initialAssets * (1 + muRate) ^ params.years
  let stdDev := mean * sigmaRate * Real.sqrt params.years
  ⟨mean, stdDev⟩

/-- Embedding of the worst-case derivation of the normal-variant
DistributionPage (src/unnamed/part_001 lines 49-56 and 160-164):
statistics from the normal-approximation model, zScore from
normalInverseCDF of the complementary tail probability, assets clamped
at zero, loss relative to the invested amount.  The pair is
(worstCaseAssets, worstCaseLoss); a thrown error propagates as none. -/
def worstCaseNormalPage (investmentAmount expectedReturn risk years threshold : ℝ) :
    Option (ℝ × ℝ) :=
  (normalInverseCDF (1 - threshold / 100)).map fun zScore =>
    let s := calculateInvestmentDistributionNormal
      ⟨investmentAmount, expectedReturn, risk, years⟩
    let worstCaseAssets := max 0 (s.mean + zScore * s.stdDev)
    (worstCaseAssets, worstCaseAssets - investmentAmount)

/-- Embedding of the worst-case derivation of the lognormal-variant
DistributionPage (src/unnamed/part_001 lines 343-350 and 588-594):
statistics from the lognormal model, zScore from normalInverseCDF of the
complementary tail probability, assets exp(logMean + z * logStdDev),
loss relative to the invested amount. -/
def worstCaseLognormalPage (investmentAmount expectedReturn risk years threshold : ℝ) :
    Option (ℝ × ℝ) :=
  (normalInverseCDF (1 - threshold / 100)).map fun zScore =>
    let s := calculateInvestmentDistribution
      ⟨investmentAmount, expectedReturn, risk, years⟩
    let worstCaseAssets := Real.exp (s.logMean + zScore * s.logStdDev)
    (worstCaseAssets, worstCaseAssets - investmentAmount)

/-- The probabilityThreshold range check of the settings form
(src/unnamed/part_001 handleSubmit, lines 1229-1232): the submission is
rejected exactly when this holds. -/
def settingsFormThresholdRejected (t : ℝ) : Prop :=
  t < 0 ∨ 100 < t

/-- The probabilityThreshold range check of the URL-parameter parser
(src/unnamed/part_000 SettingsProvider, lines 165-170): a parsed value is
accepted exactly when this holds. -/
def urlThresholdAccepted (t : ℝ) : Prop :=
  0 ≤ t ∧ t ≤ 100

/-- The claimed contract of generateNormalDistributionData: length,
sample positions and densities, first and last x value, and (conditional
on a nondegenerate span) strict monotonicity of the x values. -/
def normalCurveSpec (mean stdDev : ℝ) (numPoints : ℕ) (numStdDev : ℝ) : Prop :=
  (generateNormalDistributionData mean stdDev numPoints numStdDev).length = numPoints ∧
  (∀ (i : ℕ) (h : i < (generateNormalDistributionData mean stdDev numPoints numStdDev).length),
    (generateNormalDistributionData mean stdDev numPoints numStdDev)[i] =
      (max 0 (mean - numStdDev * stdDev) + (i : ℝ) *
        ((mean + numStdDev * stdDev - max 0 (mean - numStdDev * stdDev)) / ((numPoints : ℝ) - 1)),
       normalPDFGeneral (max 0 (mean - numStdDev * stdDev) + (i : ℝ) *
        ((mean + numStdDev * stdDev - max 0 (mean - numStdDev * stdDev)) / ((numPoints : ℝ) - 1)))
        mean stdDev)) ∧
  ((generateNormalDistributionData mean stdDev numPoints numStdDev).map Prod.fst).head? =
    some (max 0 (mean - numStdDev * stdDev)) ∧
  ((generateNormalDistributionData mean stdDev numPoints numStdDev).map Prod.fst).getLast? =
    some (mean + numStdDev * stdDev) ∧
  (max 0 (mean - numStdDev * stdDev) < mean + numStdDev * stdDev →
    List.Chain' (fun a b : ℝ => a < b)
      ((generateNormalDistributionData mean stdDev numPoints numStdDev).map Prod.fst))

/-- The claimed contract of generateLognormalDistributionData: length,
linearly spaced sample positions in the natural scale between the
exponentiated log-space bounds, densities from lognormalPDF, first and
last x value. -/
def lognormalCurveSpec (logMean logStdDev : ℝ) (numPoints : ℕ) (numStdDev : ℝ) : Prop :=
  (generateLognormalDistributionData logMean logStdDev numPoints numStdDev).length = numPoints ∧
  (∀ (i : ℕ) (h : i < (generateLognormalDistributionData logMean logStdDev numPoints numStdDev).length),
    (generateLognormalDistributionData logMean logStdDev numPoints numStdDev)[i] =
      (Real.exp (max 0 (logMean - numStdDev * logStdDev)) + (i : ℝ) *
        ((Real.exp (logMean + numStdDev * logStdDev) - Real.exp (max 0 (logMean - numStdDev * logStdDev))) /
          ((numPoints : ℝ) - 1)),
       lognormalPDF (Real.exp (max 0 (logMean - numStdDev * logStdDev)) + (i : ℝ) *
        ((Real.exp (logMean + numStdDev * logStdDev) - Real.exp (max 0 (logMean - numStdDev * logStdDev))) /
          ((numPoints : ℝ) - 1)))
        logMean logStdDev)) ∧
  ((generateLognormalDistributionData logMean logStdDev numPoints numStdDev).map Prod.fst).head? =
    some (Real.exp (max 0 (logMean - numStdDev * logStdDev))) ∧
  ((generateLognormalDistributionData logMean logStdDev numPoints numStdDev).map Prod.fst).getLast? =
    some (Real.exp (logMean + numStdDev * logStdDev))

/-- The closed-form field values claimed for the lognormal variant of
calculateInvestmentDistribution. -/
def lognormalStatsFormulaSpec (q : InvestmentDistributionParams) : Prop :=
  (calculateInvestmentDistribution q).logMean =
      Real.log q.initialAssets + (q.expectedReturn / 100 - (q.risk / 100) ^ 2 / 2) * q.years ∧
  (calculateInvestmentDistribution q).logStdDev = q.risk / 100 * Real.sqrt q.years ∧
  (calculateInvestmentDistribution q).mean =
      q.initialAssets * Real.exp (q.expectedReturn / 100 * q.years) ∧
  (calculateInvestmentDistribution q).stdDev =
      (calculateInvestmentDistribution q).mean *
        Real.sqrt (Real.exp ((q.risk / 100) ^ 2 * q.years) - 1)

/-- The corrected numeric instance for the lognormal variant at
initialAssets 1000000, expectedReturn 7.5, risk 18, years 10:
logMean is near 14.4035 (the true value of ln 1000000 + 0.588),
logStdDev near 0.5692 and mean near 2117000, each within one percent. -/
def lognormalStatsInstanceSpec : Prop :=
  |(calculateInvestmentDistribution ⟨1000000, 7.5, 18, 10⟩).logMean - 14.4035| ≤ 14.4035 / 100 ∧
  |(calculateInvestmentDistribution ⟨1000000, 7.5, 18, 10⟩).logStdDev - 0.5692| ≤ 0.5692 / 100 ∧
  |(calculateInvestmentDistribution ⟨1000000, 7.5, 18, 10⟩).mean - 2117000| ≤ 2117000 / 100

/-- The closed-form field values claimed for the normal-approximation
variant of calculateInvestmentDistribution. -/
def normalStatsFormulaSpec (q : InvestmentDistributionParams) : Prop :=
  (calculateInvestmentDistributionNormal q).mean =
      q.initialAssets * (1 + q.expectedReturn / 100) ^ q.years ∧
  (calculateInvestmentDistributionNormal q).stdDev =
      (calculateInvestmentDistributionNormal q).mean * (q.risk / 100) * Real.sqrt q.years

/-- The claimed numeric instance for the normal-approximation variant at
initialAssets 1000000, expectedReturn 7.5, risk 18, years 10:
mean near 2061032 and stdDev near 1173000, each within one percent. -/
def normalStatsInstanceSpec : Prop :=
  |(calculateInvestmentDistributionNormal ⟨1000000, 7.5, 18, 10⟩).mean - 2061032| ≤ 2061032 / 100 ∧
  |(calculateInvestmentDistributionNormal ⟨1000000, 7.5, 18, 10⟩).stdDev - 1173000| ≤ 1173000 / 100

/-- The corrected monotonicity statement for the worst case at
probabilityThreshold 90: the lognormal-page loss strictly decreases in
risk; the normal-page loss strictly decreases while the unclamped worst
case stays positive; at risk 0 both pages degenerate to the variant's
mean. -/
def worstCaseMonotoneSpec (A er years : ℝ) : Prop :=
  (∀ r1 r2 : ℝ, 0 ≤ r1 → r1 < r2 →
    ∃ p1 p2 : ℝ × ℝ, worstCaseLognormalPage A er r1 years 90 = some p1 ∧
      worstCaseLognormalPage A er r2 years 90 = some p2 ∧ p2.2 < p1.2) ∧
  (∀ r1 r2 : ℝ, 0 ≤ r1 → r1 < r2 →
    0 < (calculateInvestmentDistributionNormal ⟨A, er, r2, years⟩).mean +
        normalInverseCDFBody (1 - 90 / 100) *
          (calculateInvestmentDistributionNormal ⟨A, er, r2, years⟩).stdDev →
    ∃ p1 p2 : ℝ × ℝ, worstCaseNormalPage A er r1 years 90 = some p1 ∧
      worstCaseNormalPage A er r2 years 90 = some p2 ∧ p2.2 < p1.2) ∧
  worstCaseLognormalPage A er 0 years 90 =
    some ((calculateInvestmentDistribution ⟨A, er, 0, years⟩).mean,
      (calculateInvestmentDistribution ⟨A, er, 0, years⟩).mean - A) ∧
  worstCaseNormalPage A er 0 years 90 =
    some ((calculateInvestmentDistributionNormal ⟨A, er, 0, years⟩).mean,
      (calculateInvestmentDistributionNormal ⟨A, er, 0, years⟩).mean - A)

/-! Numeric helper bounds used by the claim theorems. -/

lemma sqrt_ten_bounds : 3.16227 ≤ Real.sqrt 10 ∧ Real.sqrt 10 ≤ 3.16228 := by
  have h := Real.sq_sqrt (by norm_num : (0:ℝ) ≤ 10)
  have hn := Real.sqrt_nonneg 10
  constructor <;> nlinarith [h, hn]

lemma log_million_bounds : 13.72 ≤ Real.log 1000000 ∧ Real.log 1000000 ≤ 13.94 := by
  have h2l : (0.6931471803 : ℝ) < Real.log 2 := Real.log_two_gt_d9
  have h2u : Real.log 2 < 0.6931471808 := Real.log_two_lt_d9
  have hsplit : Real.log 1000000 = 19 * Real.log 2 + Real.log (15625 / 8192) := by
    rw [show (1000000 : ℝ) = 2 ^ 19 * (15625 / 8192) by norm_num,
      Real.log_mul (by norm_num) (by norm_num), Real.log_pow]
    norm_num
  have hql : (38 / 69 : ℝ) ≤ Real.log (15625 / 8192) := by
    have hfac : Real.log (15625 / 8192) =
        Real.log (1.38 ^ 2) + Real.log (15625 / 8192 / 1.38 ^ 2) := by
      rw [← Real.log_mul (by norm_num) (by norm_num)]
      norm_num
    have h138 : (19 / 69 : ℝ) ≤ Real.log 1.38 := by
      have := Real.log_le_sub_one_of_pos (show (0:ℝ) < (1.38)⁻¹ by norm_num)
      rw [Real.log_inv] at this
      norm_num at this ⊢
      linarith
    have hrat : (0:ℝ) ≤ Real.log (15625 / 8192 / 1.38 ^ 2) :=
      Real.log_nonneg (by norm_num)
    have hsq : Real.log ((1.38:ℝ) ^ 2) = 2 * Real.log 1.38 := by
      rw [Real.log_pow]; norm_num
    rw [hfac, hsq]
    linarith
  have hqu : Real.log (15625 / 8192) ≤ 0.76214 := by
    have hfac : Real.log (15625 / 8192) =
        Real.log 1.3811 + Real.log (15625 / 8192 / 1.3811) := by
      rw [← Real.log_mul (by norm_num) (by norm_num)]
      norm_num
    have h1 : Real.log (1.3811 : ℝ) ≤ 1.3811 - 1 :=
      Real.log_le_sub_one_of_pos (by norm_num)
    have h2 : Real.log (15625 / 8192 / 1.3811 : ℝ) ≤ 15625 / 8192 / 1.3811 - 1 :=
      Real.log_le_sub_one_of_pos (by norm_num)
    rw [hfac]
    have : (15625 / 8192 / 1.3811 : ℝ) - 1 ≤ 0.3811 := by norm_num
    linarith
  constructor <;> (rw [hsplit]; linarith)

lemma exp_three_bounds : 19.6 ≤ Real.exp 3 ∧ Real.exp 3 ≤ 20.13 := by
  have h : Real.exp ((3:ℕ) * (1:ℝ)) = Real.exp 1 ^ 3 := Real.exp_nat_mul 1 3
  have h3 : Real.exp 3 = Real.exp 1 ^ 3 := by
    rw [← h]; norm_num
  have hl : (2.7182818283 : ℝ) < Real.exp 1 := Real.exp_one_gt_d9
  have hu : Real.exp 1 < 2.7182818286 := Real.exp_one_lt_d9
  have hc1 : (2.7182818283 : ℝ) ^ 3 < Real.exp 1 ^ 3 :=
    pow_lt_pow_left₀ hl (by norm_num) (by norm_num)
  have hc2 : Real.exp 1 ^ 3 < (2.7182818286 : ℝ) ^ 3 :=
    pow_lt_pow_left₀ hu (Real.exp_pos 1).le (by norm_num)
  constructor <;> (rw [h3]; norm_num at hc1 hc2 ⊢) <;> linarith

lemma exp_three_quarters_bounds : 2.1 ≤ Real.exp 0.75 ∧ Real.exp 0.75 ≤ 2.13 := by
  have h : Real.exp ((4:ℕ) * (0.75:ℝ)) = Real.exp 0.75 ^ 4 := Real.exp_nat_mul 0.75 4
  have h4 : Real.exp 0.75 ^ 4 = Real.exp 3 := by
    rw [← h]; norm_num
  obtain ⟨h3l, h3u⟩ := exp_three_bounds
  have hp : (0:ℝ) < Real.exp 0.75 := Real.exp_pos 0.75
  constructor
  · by_contra hc
    push_neg at hc
    have : Real.exp 0.75 ^ 4 < (2.1:ℝ) ^ 4 :=
      pow_lt_pow_left₀ hc hp.le (by norm_num)
    rw [h4] at this
    norm_num at this
    linarith
  · by_contra hc
    push_neg at hc
    have : (2.13:ℝ) ^ 4 < Real.exp 0.75 ^ 4 :=
      pow_lt_pow_left₀ hc (by norm_num) (by norm_num)
    rw [h4] at this
    norm_num at this
    linarith

lemma erf_zero : erf 0 = 1e-9 := by
  simp only [erf]
  norm_num

lemma erf_neg_of_pos {x : ℝ} (hx : 0 < x) : erf (-x) = -erf x := by
  simp only [erf, abs_neg]
  rw [if_neg (by linarith), if_pos hx.le]
  ring

lemma erf_neg {x : ℝ} (hx : x ≠ 0) : erf (-x) = -erf x := by
  rcases lt_or_gt_of_ne hx with h | h
  · have := erf_neg_of_pos (show 0 < -x by linarith)
    rw [neg_neg] at this
    linarith
  · exact erf_neg_of_pos h

lemma z90_bounds : normalInverseCDFBody (1 - 90 / 100) ≤ -1.28 ∧
    -1.29 ≤ normalInverseCDFBody (1 - 90 / 100) := by
  simp only [normalInverseCDFBody]
  rw [if_pos (by rw [abs_of_nonpos (by norm_num)]; norm_num)]
  norm_num

lemma normalInverseCDF_90 :
    normalInverseCDF (1 - 90 / 100) = some (normalInverseCDFBody (1 - 90 / 100)) := by
  rw [normalInverseCDF, if_neg (by norm_num)]

/-! Pointwise descriptions of the two curve discretizers. -/

lemma generateNormal_length (mean stdDev : ℝ) (numPoints : ℕ) (numStdDev : ℝ) :
    (generateNormalDistributionData mean stdDev numPoints numStdDev).length = numPoints := by
  simp only [generateNormalDistributionData]
  rw [List.length_map, List.length_range]

lemma generateNormal_getElem (mean stdDev : ℝ) (numPoints : ℕ) (numStdDev : ℝ)
    (i : ℕ) (h : i < (generateNormalDistributionData mean stdDev numPoints numStdDev).length) :
    (generateNormalDistributionData mean stdDev numPoints numStdDev)[i] =
      (max 0 (mean - numStdDev * stdDev) + (i : ℝ) *
        ((mean + numStdDev * stdDev - max 0 (mean - numStdDev * stdDev)) / ((numPoints : ℝ) - 1)),
       normalPDFGeneral (max 0 (mean - numStdDev * stdDev) + (i : ℝ) *
        ((mean + numStdDev * stdDev - max 0 (mean - numStdDev * stdDev)) / ((numPoints : ℝ) - 1)))
        mean stdDev) := by
  simp only [generateNormalDistributionData] at h ⊢
  rw [List.getElem_map, List.getElem_range]

lemma generateNormal_head (mean stdDev : ℝ) (numPoints : ℕ) (numStdDev : ℝ)
    (h : 2 ≤ numPoints) :
    ((generateNormalDistributionData mean stdDev numPoints numStdDev).map Prod.fst).head? =
      some (max 0 (mean - numStdDev * stdDev)) := by
  have hlen : ((generateNormalDistributionData mean stdDev numPoints numStdDev).map Prod.fst).length = numPoints := by
    rw [List.length_map, generateNormal_length]
  have hlt : 0 < ((generateNormalDistributionData mean stdDev numPoints numStdDev).map Prod.fst).length := by
    omega
  rw [List.head?_eq_getElem?, List.getElem?_eq_getElem hlt, List.getElem_map,
    generateNormal_getElem]
  norm_num

lemma generateNormal_last (mean stdDev : ℝ) (numPoints : ℕ) (numStdDev : ℝ)
    (h : 2 ≤ numPoints) :
    ((generateNormalDistributionData mean stdDev numPoints numStdDev).map Prod.fst).getLast? =
      some (mean + numStdDev * stdDev) := by
  have hlen : ((generateNormalDistributionData mean stdDev numPoints numStdDev).map Prod.fst).length = numPoints := by
    rw [List.length_map, generateNormal_length]
  have hlt : numPoints - 1 < ((generateNormalDistributionData mean stdDev numPoints numStdDev).map Prod.fst).length := by
    omega
  rw [List.getLast?_eq_getElem?, hlen, List.getElem?_eq_getElem hlt, List.getElem_map,
    generateNormal_getElem]
  have hcast : ((numPoints - 1 : ℕ) : ℝ) = (numPoints : ℝ) - 1 := by
    have h1 : (1:ℕ) ≤ numPoints := by omega
    push_cast [h1]
    ring
  have hne : ((numPoints : ℝ) - 1) ≠ 0 := by
    have : (2:ℝ) ≤ (numPoints : ℝ) := by exact_mod_cast h
    linarith
  rw [hcast]
  field_simp

lemma generateNormal_chain (mean stdDev : ℝ) (numPoints : ℕ) (numStdDev : ℝ)
    (h2 : 2 ≤ numPoints)
    (hspan : max 0 (mean - numStdDev * stdDev) < mean + numStdDev * stdDev) :
    List.Chain' (fun a b : ℝ => a < b)
      ((generateNormalDistributionData mean stdDev numPoints numStdDev).map Prod.fst) := by
  have hlen : ((generateNormalDistributionData mean stdDev numPoints numStdDev).map Prod.fst).length = numPoints := by
    rw [List.length_map, generateNormal_length]
  have hstep : 0 < (mean + numStdDev * stdDev - max 0 (mean - numStdDev * stdDev)) / ((numPoints : ℝ) - 1) := by
    apply div_pos (by linarith)
    have : (2:ℝ) ≤ (numPoints : ℝ) := by exact_mod_cast h2
    linarith
  rw [List.chain'_iff_get]
  intro i hi
  rw [hlen] at hi
  have hi1 : i < (generateNormalDistributionData mean stdDev numPoints numStdDev).length := by
    rw [generateNormal_length]; omega
  have hi2 : i + 1 < (generateNormalDistributionData mean stdDev numPoints numStdDev).length := by
    rw [generateNormal_length]; omega
  simp only [List.get_eq_getElem, List.getElem_map]
  rw [generateNormal_getElem _ _ _ _ _ hi1, generateNormal_getElem _ _ _ _ _ hi2]
  simp only
  have hc : (i : ℝ) < ((i + 1 : ℕ) : ℝ) := by push_cast; linarith
  nlinarith [hstep, hc]

lemma generateLognormal_length (logMean logStdDev : ℝ) (numPoints : ℕ) (numStdDev : ℝ) :
    (generateLognormalDistributionData logMean logStdDev numPoints numStdDev).length = numPoints := by
  simp only [generateLognormalDistributionData]
  rw [List.length_map, List.length_range]

lemma generateLognormal_getElem (logMean logStdDev : ℝ) (numPoints : ℕ) (numStdDev : ℝ)
    (i : ℕ) (h : i < (generateLognormalDistributionData logMean logStdDev numPoints numStdDev).length) :
    (generateLognormalDistributionData logMean logStdDev numPoints numStdDev)[i] =
      (Real.exp (max 0 (logMean - numStdDev * logStdDev)) + (i : ℝ) *
        ((Real.exp (logMean + numStdDev * logStdDev) - Real.exp (max 0 (logMean - numStdDev * logStdDev))) /
          ((numPoints : ℝ) - 1)),
       lognormalPDF (Real.exp (max 0 (logMean - numStdDev * logStdDev)) + (i : ℝ) *
        ((Real.exp (logMean + numStdDev * logStdDev) - Real.exp (max 0 (logMean - numStdDev * logStdDev))) /
          ((numPoints : ℝ) - 1)))
        logMean logStdDev) := by
  simp only [generateLognormalDistributionData] at h ⊢
  rw [List.getElem_map, List.getElem_range]

lemma generateLognormal_head (logMean logStdDev : ℝ) (numPoints : ℕ) (numStdDev : ℝ)
    (h : 2 ≤ numPoints) :
    ((generateLognormalDistributionData logMean logStdDev numPoints numStdDev).map Prod.fst).head? =
      some (Real.exp (max 0 (logMean - numStdDev * logStdDev))) := by
  have hlen : ((generateLognormalDistributionData logMean logStdDev numPoints numStdDev).map Prod.fst).length = numPoints := by
    rw [List.length_map, generateLognormal_length]
  have hlt : 0 < ((generateLognormalDistributionData logMean logStdDev numPoints numStdDev).map Prod.fst).length := by
    omega
  rw [List.head?_eq_getElem?, List.getElem?_eq_getElem hlt, List.getElem_map,
    generateLognormal_getElem]
  norm_num

lemma generateLognormal_last (logMean logStdDev : ℝ) (numPoints : ℕ) (numStdDev : ℝ)
    (h : 2 ≤ numPoints) :
    ((generateLognormalDistributionData logMean logStdDev numPoints numStdDev).map Prod.fst).getLast? =
      some (Real.exp (logMean + numStdDev * logStdDev)) := by
  have hlen : ((generateLognormalDistributionData logMean logStdDev numPoints numStdDev).map Prod.fst).length = numPoints := by
    rw [List.length_map, generateLognormal_length]
  have hlt : numPoints - 1 < ((generateLognormalDistributionData logMean logStdDev numPoints numStdDev).map Prod.fst).length := by
    omega
  rw [List.getLast?_eq_getElem?, hlen, List.getElem?_eq_getElem hlt, List.getElem_map,
    generateLognormal_getElem]
  have hcast : ((numPoints - 1 : ℕ) : ℝ) = (numPoints : ℝ) - 1 := by
    have h1 : (1:ℕ) ≤ numPoints := by omega
    push_cast [h1]
    ring
  have hne : ((numPoints : ℝ) - 1) ≠ 0 := by
    have : (2:ℝ) ≤ (numPoints : ℝ) := by exact_mod_cast h
    linarith
  rw [hcast]
  field_simp

/-! Explicit forms of the two page worst-case pipelines at threshold 90. -/

lemma worstCaseLognormalPage_eq (A er r years : ℝ) :
    worstCaseLognormalPage A er r years 90 = some
      (Real.exp ((calculateInvestmentDistribution ⟨A, er, r, years⟩).logMean +
        normalInverseCDFBody (1 - 90 / 100) *
          (calculateInvestmentDistribution ⟨A, er, r, years⟩).logStdDev),
       Real.exp ((calculateInvestmentDistribution ⟨A, er, r, years⟩).logMean +
        normalInverseCDFBody (1 - 90 / 100) *
          (calculateInvestmentDistribution ⟨A, er, r, years⟩).logStdDev) - A) := by
  rw [worstCaseLognormalPage, normalInverseCDF_90, Option.map_some']

lemma worstCaseNormalPage_eq (A er r years : ℝ) :
    worstCaseNormalPage A er r years 90 = some
      (max 0 ((calculateInvestmentDistributionNormal ⟨A, er, r, years⟩).mean +
        normalInverseCDFBody (1 - 90 / 100) *
          (calculateInvestmentDistributionNormal ⟨A, er, r, years⟩).stdDev),
       max 0 ((calculateInvestmentDistributionNormal ⟨A, er, r, years⟩).mean +
        normalInverseCDFBody (1 - 90 / 100) *
          (calculateInvestmentDistributionNormal ⟨A, er, r, years⟩).stdDev) - A) := by
  rw [worstCaseNormalPage, normalInverseCDF_90, Option.map_some']

/-- C2 (counterexample): the claim asserts strictly increasing x values
for every mean, stdDev, numStdDev and numPoints at least 2, but at
mean -100, stdDev 10, numStdDev 3, numPoints 2 the generated x values
are 0 followed by -70, which is strictly decreasing. -/
theorem C2_counterexample :
    ((generateNormalDistributionData (-100) 10 2 3).map Prod.fst = [0, -70]) ∧
    ¬ List.Chain' (fun a b : ℝ => a < b)
        ((generateNormalDistributionData (-100) 10 2 3).map Prod.fst) := by
  have hmap : (generateNormalDistributionData (-100) 10 2 3).map Prod.fst = [0, -70] := by
    simp only [generateNormalDistributionData, List.range_succ, List.range_zero,
      List.nil_append, List.cons_append, List.map_cons, List.map_nil]
    norm_num
  refine ⟨hmap, ?_⟩
  rw [hmap]
  simp only [List.chain'_cons, List.chain'_singleton, and_true]
  norm_num

/-- C2 (amended): for every mean, stdDev, numStdDev and numPoints at
least 2, generateNormalDistributionData returns exactly numPoints
equally spaced samples with y = normalPDFGeneral at each x, first x
max(0, mean - numStdDev*stdDev) and last x mean + numStdDev*stdDev; the
x values are strictly increasing provided the span is nondegenerate,
that is max(0, mean - numStdDev*stdDev) < mean + numStdDev*stdDev.  In
particular the instance mean 100, stdDev 10, numPoints 300, numStdDev 3
has 300 samples running from 70 to 130. -/
theorem C2_amended (mean stdDev numStdDev : ℝ) (numPoints : ℕ) (h2 : 2 ≤ numPoints) :
    normalCurveSpec mean stdDev numPoints numStdDev ∧
    (generateNormalDistributionData 100 10 300 3).length = 300 ∧
    ((generateNormalDistributionData 100 10 300 3).map Prod.fst).head? = some 70 ∧
    ((generateNormalDistributionData 100 10 300 3).map Prod.fst).getLast? = some 130 := by
  refine ⟨⟨generateNormal_length mean stdDev numPoints numStdDev,
    fun i h => generateNormal_getElem mean stdDev numPoints numStdDev i h,
    generateNormal_head mean stdDev numPoints numStdDev h2,
    generateNormal_last mean stdDev numPoints numStdDev h2,
    fun hspan => generateNormal_chain mean stdDev numPoints numStdDev h2 hspan⟩,
    generateNormal_length 100 10 300 3, ?_, ?_⟩
  · rw [generateNormal_head 100 10 300 3 (by norm_num)]
    norm_num
  · rw [generateNormal_last 100 10 300 3 (by norm_num)]
    norm_num

/-- C2 (witness): the amended theorem applied at mean 100, stdDev 10,
numPoints 300, numStdDev 3. -/
theorem C2_witness : 2 ≤ 300 ∧
    (normalCurveSpec 100 10 300 3 ∧
    (generateNormalDistributionData 100 10 300 3).length = 300 ∧
    ((generateNormalDistributionData 100 10 300 3).map Prod.fst).head? = some 70 ∧
    ((generateNormalDistributionData 100 10 300 3).map Prod.fst).getLast? = some 130) :=
  ⟨by norm_num, C2_amended 100 10 3 300 (by norm_num)⟩

/-- C3: normalInverseCDF reports the invalid-probability error exactly
when p is at most 0 or at least 1, and otherwise returns the
Beasley-Springer-Moro value without erroring. -/
theorem C3_theorem : ∀ p : ℝ,
    (normalInverseCDF p = none ↔ p ≤ 0 ∨ 1 ≤ p) ∧
    (0 < p → p < 1 → normalInverseCDF p = some (normalInverseCDFBody p)) := by
  intro p
  constructor
  · constructor
    · intro h
      by_contra hc
      rw [normalInverseCDF, if_neg hc] at h
      exact Option.some_ne_none _ h
    · intro h
      rw [normalInverseCDF, if_pos h]
  · intro h1 h2
    rw [normalInverseCDF, if_neg (by push_neg; exact ⟨h1, h2⟩)]

/-- C3 (witness): the theorem applied at one half, a probability inside
the open unit interval, and at 2, a probability outside it. -/
theorem C3_witness :
    normalInverseCDF (1 / 2) = some (normalInverseCDFBody (1 / 2)) ∧
    normalInverseCDF 2 = none :=
  ⟨(C3_theorem (1 / 2)).2 (by norm_num) (by norm_num),
   (C3_theorem 2).1.mpr (by norm_num)⟩

/-- C6: for every logMean, logStdDev, numStdDev and numPoints at least
2, generateLognormalDistributionData returns exactly numPoints samples
linearly spaced in the natural scale between the exponentiated log-space
bounds, with y = lognormalPDF at each x. -/
theorem C6_theorem (logMean logStdDev numStdDev : ℝ) (numPoints : ℕ)
    (h2 : 2 ≤ numPoints) :
    lognormalCurveSpec logMean logStdDev numPoints numStdDev :=
  ⟨generateLognormal_length logMean logStdDev numPoints numStdDev,
   fun i h => generateLognormal_getElem logMean logStdDev numPoints numStdDev i h,
   generateLognormal_head logMean logStdDev numPoints numStdDev h2,
   generateLognormal_last logMean logStdDev numPoints numStdDev h2⟩

/-- C6 (witness): the theorem applied at logMean 14, logStdDev one half,
numPoints 300, numStdDev 3. -/
theorem C6_witness : 2 ≤ 300 ∧ lognormalCurveSpec 14 (1 / 2) 300 3 :=
  ⟨by norm_num, C6_theorem 14 (1 / 2) 3 300 (by norm_num)⟩

/-- C7 (counterexample): the claim asserts exact odd symmetry of erf and
normalCDF 0 = one half, but the Abramowitz-Stegun coefficient sum leaves
erf 0 = 1e-9, so both exact identities fail at x = 0. -/
theorem C7_counterexample : erf (-(0:ℝ)) ≠ -erf 0 ∧ normalCDF 0 ≠ 0.5 := by
  constructor
  · rw [neg_zero, erf_zero]
    norm_num
  · rw [normalCDF, zero_div, erf_zero]
    norm_num

/-- C7 (amended): erf is exactly odd away from 0; at 0 the approximation
returns 1e-9, so the reflection identity for normalCDF and the value at
0 hold within 1e-6 (and exactly away from 0). -/
theorem C7_amended :
    (∀ x : ℝ, x ≠ 0 → erf (-x) = -erf x) ∧
    erf 0 = 1e-9 ∧
    (∀ x : ℝ, |normalCDF x + normalCDF (-x) - 1| ≤ 1e-6) ∧
    |normalCDF 0 - 0.5| ≤ 1e-6 := by
  refine ⟨fun x hx => erf_neg hx, erf_zero, ?_, ?_⟩
  · intro x
    by_cases hx : x = 0
    · subst hx
      rw [neg_zero, normalCDF, zero_div, erf_zero, abs_le]
      constructor <;> norm_num
    · have hs2 : Real.sqrt 2 ≠ 0 := by
        have : (0:ℝ) < Real.sqrt 2 := Real.sqrt_pos.mpr (by norm_num)
        linarith
      have hxd : x / Real.sqrt 2 ≠ 0 := div_ne_zero hx hs2
      have hzero : normalCDF x + normalCDF (-x) - 1 = 0 := by
        rw [normalCDF, normalCDF, neg_div, erf_neg hxd]
        ring
      rw [hzero]
      norm_num
  · rw [normalCDF, zero_div, erf_zero, abs_le]
    constructor <;> norm_num

/-- C7 (witness): the amended oddness applied at 1, plus the bound at 0. -/
theorem C7_witness :
    ((1:ℝ) ≠ 0 ∧ erf (-(1:ℝ)) = -erf 1) ∧ |normalCDF 0 - 0.5| ≤ 1e-6 :=
  ⟨⟨by norm_num, C7_amended.1 1 (by norm_num)⟩, C7_amended.2.2.2⟩

/-- C8: for every x at most 0 and any parameters, lognormalPDF and
lognormalCDF both return exactly 0 (and, being total functions, raise no
error). -/
theorem C8_theorem : ∀ x logMean logStdDev : ℝ, x ≤ 0 →
    lognormalPDF x logMean logStdDev = 0 ∧ lognormalCDF x logMean logStdDev = 0 := by
  intro x lm ls h
  exact ⟨by rw [lognormalPDF, if_pos h], by rw [lognormalCDF, if_pos h]⟩

/-- C8 (witness): the theorem applied at x = 0 with parameters 14 and
one half. -/
theorem C8_witness : (0:ℝ) ≤ 0 ∧
    (lognormalPDF 0 14 (1 / 2) = 0 ∧ lognormalCDF 0 14 (1 / 2) = 0) :=
  ⟨le_refl 0, C8_theorem 0 14 (1 / 2) (le_refl 0)⟩

/-- C10: the threshold values 100 and 0 pass both the settings-form
range check and the URL-parameter range check, and at those values the
worst-case computations of both distribution pages call normalInverseCDF
at 0 (respectively 1) with no intermediate clamping, so the
invalid-probability error is reachable from validly persisted settings. -/
theorem C10_theorem :
    (¬ settingsFormThresholdRejected 100 ∧ urlThresholdAccepted 100 ∧
      (1 - (100:ℝ) / 100 = 0) ∧
      worstCaseNormalPage 1000000 7.5 18 10 100 = none ∧
      worstCaseLognormalPage 1000000 7.5 18 10 100 = none) ∧
    (¬ settingsFormThresholdRejected 0 ∧ urlThresholdAccepted 0 ∧
      (1 - (0:ℝ) / 100 = 1) ∧
      worstCaseNormalPage 1000000 7.5 18 10 0 = none ∧
      worstCaseLognormalPage 1000000 7.5 18 10 0 = none) := by
  have h100 : normalInverseCDF (1 - (100:ℝ) / 100) = none := by
    rw [normalInverseCDF, if_pos (by norm_num)]
  have h0 : normalInverseCDF (1 - (0:ℝ) / 100) = none := by
    rw [normalInverseCDF, if_pos (by norm_num)]
  refine ⟨⟨?_, ⟨by norm_num, by norm_num⟩, by norm_num, ?_, ?_⟩,
    ⟨?_, ⟨by norm_num, by norm_num⟩, by norm_num, ?_, ?_⟩⟩
  · simp only [settingsFormThresholdRejected]
    push_neg
    norm_num
  · rw [worstCaseNormalPage, h100]
    rfl
  · rw [worstCaseLognormalPage, h100]
    rfl
  · simp only [settingsFormThresholdRejected]
    push_neg
    norm_num
  · rw [worstCaseNormalPage, h0]
    rfl
  · rw [worstCaseLognormalPage, h0]
    rfl

/-- C1 (counterexample): the claim asserts logMean near 13.9654 (within
one percent) at initialAssets 1000000, expectedReturn 7.5, risk 18,
years 10, but the code computes ln 1000000 + 0.588, which is about
14.4035 and lies outside that window. -/
theorem C1_counterexample :
    ¬ |(calculateInvestmentDistribution ⟨1000000, 7.5, 18, 10⟩).logMean - 13.9654| ≤
      13.9654 / 100 := by
  have hL := log_million_bounds.1
  simp only [calculateInvestmentDistribution]
  rw [abs_le]
  push_neg
  intro h
  nlinarith

/-- C1 (amended): the lognormal variant returns the claimed closed-form
fields for all parameters with positive initialAssets, nonnegative risk
and positive years; at the stated instance the numeric values are
logMean near 14.4035 (not 13.9654), logStdDev near 0.5692 and mean near
2117000, each within one percent. -/
theorem C1_amended (q : InvestmentDistributionParams) (h1 : 0 < q.initialAssets)
    (h2 : 0 ≤ q.risk) (h3 : 0 < q.years) :
    lognormalStatsFormulaSpec q ∧ lognormalStatsInstanceSpec := by
  constructor
  · refine ⟨?_, ?_, ?_, ?_⟩ <;>
      simp only [calculateInvestmentDistribution] <;>
      rw [pow_two] <;>
      ring
  · refine ⟨?_, ?_, ?_⟩
    · have hL1 := log_million_bounds.1
      have hL2 := log_million_bounds.2
      simp only [calculateInvestmentDistribution]
      rw [abs_le]
      constructor <;> nlinarith
    · have hs1 := sqrt_ten_bounds.1
      have hs2 := sqrt_ten_bounds.2
      simp only [calculateInvestmentDistribution]
      rw [abs_le]
      constructor <;> nlinarith
    · have he1 := exp_three_quarters_bounds.1
      have he2 := exp_three_quarters_bounds.2
      simp only [calculateInvestmentDistribution]
      rw [show ((7.5:ℝ) / 100 * 10) = 0.75 by norm_num, abs_le]
      constructor <;> nlinarith

/-- C1 (witness): the amended theorem applied at the stated instance. -/
theorem C1_witness :
    (0:ℝ) < 1000000 ∧ (0:ℝ) ≤ 18 ∧ (0:ℝ) < 10 ∧
    (lognormalStatsFormulaSpec ⟨1000000, 7.5, 18, 10⟩ ∧ lognormalStatsInstanceSpec) :=
  ⟨by norm_num, by norm_num, by norm_num,
   C1_amended ⟨1000000, 7.5, 18, 10⟩ (by norm_num) (by norm_num) (by norm_num)⟩

/-- C5: the normal-approximation variant returns the claimed closed-form
mean and stdDev for all parameters with positive initialAssets,
nonnegative risk and positive years; at the stated instance the numeric
values are mean near 2061032 and stdDev near 1173000, each within one
percent. -/
theorem C5_theorem (q : InvestmentDistributionParams) (h1 : 0 < q.initialAssets)
    (h2 : 0 ≤ q.risk) (h3 : 0 < q.years) :
    normalStatsFormulaSpec q ∧ normalStatsInstanceSpec := by
  have hpow : ((1 + 7.5 / 100 : ℝ) ^ (10:ℝ)) = (1.075:ℝ) ^ (10:ℕ) := by
    rw [show (1 + 7.5 / 100 : ℝ) = 1.075 by norm_num,
      show ((10:ℝ)) = ((10:ℕ):ℝ) by norm_num, Real.rpow_natCast]
  constructor
  · exact ⟨rfl, rfl⟩
  · constructor
    · simp only [calculateInvestmentDistributionNormal]
      rw [hpow, abs_le]
      norm_num
    · have hs1 := sqrt_ten_bounds.1
      have hs2 := sqrt_ten_bounds.2
      simp only [calculateInvestmentDistributionNormal]
      rw [hpow, abs_le]
      constructor <;> nlinarith

/-- C5 (witness): the theorem applied at the stated instance. -/
theorem C5_witness :
    (0:ℝ) < 1000000 ∧ (0:ℝ) ≤ 18 ∧ (0:ℝ) < 10 ∧
    (normalStatsFormulaSpec ⟨1000000, 7.5, 18, 10⟩ ∧ normalStatsInstanceSpec) :=
  ⟨by norm_num, by norm_num, by norm_num,
   C5_theorem ⟨1000000, 7.5, 18, 10⟩ (by norm_num) (by norm_num) (by norm_num)⟩

/-- C9 (counterexample): the claim asserts the normal-variant worst-case
loss strictly decreases as risk increases, but once the zero clamp is
active it is constant: at initialAssets 1000000, expectedReturn 7.5,
years 10, threshold 90, risks 30 and 40 both give worstCaseAssets 0 and
loss -1000000. -/
theorem C9_counterexample :
    worstCaseNormalPage 1000000 7.5 30 10 90 = some (0, -1000000) ∧
    worstCaseNormalPage 1000000 7.5 40 10 90 = some (0, -1000000) := by
  obtain ⟨hz1, hz2⟩ := z90_bounds
  obtain ⟨hs1, hs2⟩ := sqrt_ten_bounds
  have hm : (0:ℝ) < 1000000 * (1 + 7.5 / 100) ^ (10:ℝ) :=
    mul_pos (by norm_num) (Real.rpow_pos_of_pos (by norm_num) 10)
  have hzs : normalInverseCDFBody (1 - 90 / 100) * Real.sqrt 10 ≤ -4.04 := by
    nlinarith
  constructor
  · rw [worstCaseNormalPage_eq]
    simp only [calculateInvestmentDistributionNormal]
    have hneg : 1000000 * (1 + 7.5 / 100) ^ (10:ℝ) +
        normalInverseCDFBody (1 - 90 / 100) *
          (1000000 * (1 + 7.5 / 100) ^ (10:ℝ) * (30 / 100) * Real.sqrt 10) ≤ 0 := by
      nlinarith [mul_le_mul_of_nonneg_left hzs hm.le]
    rw [max_eq_left hneg]
    norm_num
  · rw [worstCaseNormalPage_eq]
    simp only [calculateInvestmentDistributionNormal]
    have hneg : 1000000 * (1 + 7.5 / 100) ^ (10:ℝ) +
        normalInverseCDFBody (1 - 90 / 100) *
          (1000000 * (1 + 7.5 / 100) ^ (10:ℝ) * (40 / 100) * Real.sqrt 10) ≤ 0 := by
      nlinarith [mul_le_mul_of_nonneg_left hzs hm.le]
    rw [max_eq_left hneg]
    norm_num

/-- C9 (amended): at threshold 90 the lognormal-page worst-case loss is
strictly decreasing in risk for all risks; the normal-page loss is
strictly decreasing while the unclamped worst case stays positive (and
is constant once clamped, as the counterexample shows); at risk 0 both
pages degenerate to the variant's deterministic mean. -/
theorem C9_amended (A er years : ℝ) (hA : 0 < A) (her : -100 < er) (hy : 0 < years) :
    worstCaseMonotoneSpec A er years := by
  obtain ⟨hz1, hz2⟩ := z90_bounds
  have hzneg : normalInverseCDFBody (1 - 90 / 100) < 0 := by linarith
  have hsq : 0 < Real.sqrt years := Real.sqrt_pos.mpr hy
  have hbase : (0:ℝ) < 1 + er / 100 := by linarith
  have hm : (0:ℝ) < A * (1 + er / 100) ^ years :=
    mul_pos hA (Real.rpow_pos_of_pos hbase years)
  refine ⟨?_, ?_, ?_, ?_⟩
  · intro r1 r2 h01 h12
    refine ⟨_, _, worstCaseLognormalPage_eq A er r1 years,
      worstCaseLognormalPage_eq A er r2 years, ?_⟩
    simp only [calculateInvestmentDistribution]
    have hexp : Real.log A + (er / 100 - r2 / 100 * (r2 / 100) / 2) * years +
        normalInverseCDFBody (1 - 90 / 100) * (r2 / 100 * Real.sqrt years) <
        Real.log A + (er / 100 - r1 / 100 * (r1 / 100) / 2) * years +
        normalInverseCDFBody (1 - 90 / 100) * (r1 / 100 * Real.sqrt years) := by
      nlinarith [mul_pos (show (0:ℝ) < r2 / 100 - r1 / 100 by linarith) hsq,
        mul_nonneg (show (0:ℝ) ≤ r2 / 100 + r1 / 100 by linarith) hy.le,
        mul_pos (mul_pos (show (0:ℝ) < r2 / 100 - r1 / 100 by linarith) hsq)
          (show (0:ℝ) < 1.28 by norm_num)]
    have := Real.exp_lt_exp.mpr hexp
    linarith
  · intro r1 r2 h01 h12 hpos
    simp only [calculateInvestmentDistributionNormal] at hpos
    refine ⟨_, _, worstCaseNormalPage_eq A er r1 years,
      worstCaseNormalPage_eq A er r2 years, ?_⟩
    simp only [calculateInvestmentDistributionNormal, Prod.snd]
    have hsig : A * (1 + er / 100) ^ years * (r1 / 100) * Real.sqrt years <
        A * (1 + er / 100) ^ years * (r2 / 100) * Real.sqrt years := by
      nlinarith [mul_pos (mul_pos hm hsq) (show (0:ℝ) < (r2 - r1) / 100 by linarith)]
    have hz12 : normalInverseCDFBody (1 - 90 / 100) *
        (A * (1 + er / 100) ^ years * (r2 / 100) * Real.sqrt years) <
        normalInverseCDFBody (1 - 90 / 100) *
        (A * (1 + er / 100) ^ years * (r1 / 100) * Real.sqrt years) :=
      mul_lt_mul_of_neg_left hsig hzneg
    have hp2 : (0:ℝ) < A * (1 + er / 100) ^ years +
        normalInverseCDFBody (1 - 90 / 100) *
          (A * (1 + er / 100) ^ years * (r2 / 100) * Real.sqrt years) := hpos
    have hp1 : (0:ℝ) < A * (1 + er / 100) ^ years +
        normalInverseCDFBody (1 - 90 / 100) *
          (A * (1 + er / 100) ^ years * (r1 / 100) * Real.sqrt years) := by
      linarith
    rw [max_eq_right hp1.le, max_eq_right hp2.le]
    linarith
  · rw [worstCaseLognormalPage_eq]
    have hval : Real.exp ((calculateInvestmentDistribution ⟨A, er, 0, years⟩).logMean +
        normalInverseCDFBody (1 - 90 / 100) *
          (calculateInvestmentDistribution ⟨A, er, 0, years⟩).logStdDev) =
        (calculateInvestmentDistribution ⟨A, er, 0, years⟩).mean := by
      simp only [calculateInvestmentDistribution]
      norm_num
      rw [Real.exp_add, Real.exp_log hA]
    rw [hval]
  · rw [worstCaseNormalPage_eq]
    have hval : max 0 ((calculateInvestmentDistributionNormal ⟨A, er, 0, years⟩).mean +
        normalInverseCDFBody (1 - 90 / 100) *
          (calculateInvestmentDistributionNormal ⟨A, er, 0, years⟩).stdDev) =
        (calculateInvestmentDistributionNormal ⟨A, er, 0, years⟩).mean := by
      simp only [calculateInvestmentDistributionNormal]
      norm_num
      exact hm.le
    rw [hval]

/-- C9 (witness): the amended theorem applied at initialAssets 1000000,
expectedReturn 7.5, years 10. -/
theorem C9_witness :
    (0:ℝ) < 1000000 ∧ (-100:ℝ) < 7.5 ∧ (0:ℝ) < 10 ∧ worstCaseMonotoneSpec 1000000 7.5 10 :=
  ⟨by norm_num, by norm_num, by norm_num,
   C9_amended 1000000 7.5 10 (by norm_num) (by norm_num) (by norm_num)⟩

end
